import Mathlib

/-!
A verification development for `src/nsightDemo/blur.cpp`: a Halide two-stage
box-blur benchmark harness.  The pixel arithmetic of the two Halide stages is
embedded exactly over `ℚ` (the stage definitions are pure real-valued
expressions); buffer extents and coordinates are `Int`, matching the C++ `int`
extents; the effectful parts (`Blur::schedule_for_gpu`, `Blur::test_performance`
and `main`) are embedded as explicit traces of the events they perform, with the
external Halide library calls (plugin loading, JIT compilation, autoscheduling,
clock reads) appearing as trace events or as parameters.
-/

namespace BlurDemo

/-- A 4-D tensor of pixel values, indexed `(batch n, channel c, x, y)` like the
`Buffer<float> input` of `blur.cpp`.  Values are modelled exactly over `ℚ`. -/
def Image : Type := Int → Int → Int → Int → ℚ

/-- The producer stage of `Blur::Blur`:
`producer(n, c, x, y) = (input(n, c, x, y) + input(n, c, x+1, y) + input(n, c, x+2, y)) / 3`. -/
def producer (input : Image) : Image := fun n c x y =>
  (input n c x y + input n c (x + 1) y + input n c (x + 2) y) / 3

/-- The consumer stage of `Blur::Blur`:
`consumer(n, c, x, y) = (producer(n, c, x, y) + producer(n, c, x, y+1) + producer(n, c, x, y+2)) / 3`. -/
def consumer (input : Image) : Image := fun n c x y =>
  (producer input n c x y + producer input n c x (y + 1) + producer input n c x (y + 2)) / 3

/-- The extents of a 4-D `Buffer`: `dim(0).extent(), ..., dim(3).extent()`. -/
structure Shape4 where
  d0 : Int
  d1 : Int
  d2 : Int
  d3 : Int
deriving DecidableEq

/-- The host operating system field of a Halide `Target`. -/
inductive OS where
  | OSX
  | Linux
  | Windows
  | Android
deriving DecidableEq

/-- The GPU backend features `find_gpu_target` is concerned with. -/
inductive Feature where
  | Metal
  | CUDA
  | OpenCL
  | D3D12Compute
deriving DecidableEq

/-- A Halide `Target`, restricted to the fields `blur.cpp` inspects: the host
OS and the (at most one) GPU backend feature enabled on it. -/
structure Target where
  os : OS
  gpu : Option Feature
deriving DecidableEq

/-- `Target::with_feature`: enable a GPU backend feature. -/
def Target.with_feature (t : Target) (f : Feature) : Target := { t with gpu := some f }

/-- `Target::has_gpu_feature`: whether some GPU backend feature is enabled. -/
def Target.has_gpu_feature (t : Target) : Bool := t.gpu.isSome

/-- `Target::has_feature(f)` for a GPU feature `f`. -/
def Target.has_feature (t : Target) (f : Feature) : Bool := decide (t.gpu = some f)

/-- Halide's `get_host_target()`: a descriptor for the host machine; it never
carries a GPU backend feature (those are only added by `with_feature`). -/
def get_host_target (os : OS) : Target := ⟨os, none⟩

/-- The ordered candidate list `features_to_try` built by `find_gpu_target`:
Metal on OS X hosts, otherwise CUDA. -/
def features_to_try (host : Target) : List Feature :=
  if host.os = OS.OSX then [Feature.Metal] else [Feature.CUDA]

/-- `find_gpu_target`, parameterised by the host target and by the library
predicate `host_supports_target_device`: return `host.with_feature f` for the
first candidate `f` the host supports, else the plain host target. -/
def find_gpu_target (host : Target) (host_supports_target_device : Target → Bool) : Target :=
  match (features_to_try host).find? (fun f => host_supports_target_device (host.with_feature f)) with
  | some f => host.with_feature f
  | none => host

/-- The state of a `Blur` object that the buffer and scheduling logic reads:
the input buffer's extents and the scheduler name (empty = manual path). -/
structure BlurState where
  input : Shape4
  scheduler : String
deriving DecidableEq

/-- `Blur::get_output_buffer`: a buffer of extents
`(input.dim(0).extent(), input.dim(1).extent(), input.dim(2).extent()-2, input.dim(3).extent()-2)`. -/
def BlurState.get_output_buffer (b : BlurState) : Shape4 :=
  ⟨b.input.d0, b.input.d1, b.input.d2 - 2, b.input.d3 - 2⟩

/-- The two stages of the pipeline, as targets of scheduling directives. -/
inductive Stage where
  | producer
  | consumer
deriving DecidableEq

/-- The observable events of `Blur::schedule_for_gpu`: scheduling directives
applied to a stage, the target printout, estimate setting, autoscheduling, and
JIT compilation. -/
inductive Event where
  | directive (s : Stage) (text : String)
  | print_target (t : Target)
  | set_estimates (bounds : List (Int × Int))
  | auto_schedule (algorithm : String) (t : Target)
  | compile_jit (t : Target)
deriving DecidableEq

/-- The manual CUDA schedule of `Blur::schedule_for_gpu`, in program order. -/
def manual_cuda_directives : List Event :=
  [Event.directive Stage.consumer "fuse(n, c, nc)",
   Event.directive Stage.consumer "tile(nc, x, nco, xo, nci, xi, 32, 32)",
   Event.directive Stage.consumer "gpu_blocks(nco, y)",
   Event.directive Stage.consumer "gpu_threads(nci, xi)",
   Event.directive Stage.producer "compute_at(consumer, nci)",
   Event.directive Stage.producer "store_in(MemoryType::Auto)"]

/-- `Blur::schedule_for_gpu`, as the pair (returned boolean, events performed):
resolve the target; if it has no GPU feature return `false` at once; on the
manual path apply the CUDA directives only when the target has the CUDA
feature, print the target and JIT-compile; on the autoscheduler path set
estimates, run the named autoscheduler and JIT-compile; return `true`. -/
def schedule_for_gpu (b : BlurState) (host : Target)
    (host_supports_target_device : Target → Bool) : Bool × List Event :=
  let target := find_gpu_target host host_supports_target_device
  if target.has_gpu_feature = false then
    (false, [])
  else if b.scheduler.isEmpty then
    let dirs := if target.has_feature Feature.CUDA then manual_cuda_directives else []
    (true, dirs ++ [Event.print_target target, Event.compile_jit target])
  else
    (true,
     [Event.set_estimates [(0, b.input.d0), (0, b.input.d1), (0, b.input.d2), (0, b.input.d3)],
      Event.auto_schedule b.scheduler target, Event.compile_jit target])

/-- The timing loop of `Blur::test_performance`: after `n` iterations, the pair
`(total_time, best_time)`, where `elapsed i` is the wall-clock duration
`t2 - t1` measured for iteration `i`.  `best_time` starts at `0.0` and is
overwritten when `i == 0 || elapsed < best_time`. -/
def bench_loop (elapsed : Nat → ℚ) : Nat → ℚ × ℚ
  | 0 => (0, 0)
  | n + 1 =>
    let acc := bench_loop elapsed n
    let e := elapsed n
    (acc.1 + e, if n = 0 ∨ e < acc.2 then e else acc.2)

/-- The `(average, best)` pair printed by `Blur::test_performance`:
`total_time / num_runs` and `best_time`. -/
def test_performance_report (elapsed : Nat → ℚ) (num_runs : Nat) : ℚ × ℚ :=
  ((bench_loop elapsed num_runs).1 / num_runs, (bench_loop elapsed num_runs).2)

/-- The input buffer allocated by `main`:
`Buffer<float> input(batch_size, channels_in, height, width)` with
`batch_size = 32`, `channels_in = 8`, `height = 258`, `width = 258`. -/
def input_shape : Shape4 := ⟨32, 8, 258, 258⟩

/-- The top-level actions of `main`, in program order. -/
inductive MainAction where
  | print_stdout (s : String)
  | print_stderr (s : String)
  | load_plugin (name : String)
  | alloc_input (shape : Shape4)
  | construct_blur (scheduler : String)
  | schedule_gpu (ok : Bool)
  | alloc_output (shape : Shape4)
  | run_benchmark (num_runs : Nat)
  | exit_code (code : Int)
deriving DecidableEq

/-- The tail of `main` after argument handling: generate the input, construct
the `Blur`, call `schedule_for_gpu` (its boolean is recorded but never
branched on), then `test_performance` (which allocates the output buffer and
runs the 100-iteration benchmark), then return 0. -/
def main_rest (scheduler : String) (host : Target) (hs : Target → Bool) : List MainAction :=
  [MainAction.print_stdout
      "Generating input with dimensions: batch_size: 32, height: 258, width: 258, channels: 8",
   MainAction.alloc_input input_shape,
   MainAction.print_stdout "Running pipeline on GPU:",
   MainAction.construct_blur scheduler,
   MainAction.schedule_gpu (schedule_for_gpu ⟨input_shape, scheduler⟩ host hs).1,
   MainAction.print_stdout "Testing performance on GPU:",
   MainAction.alloc_output (BlurState.get_output_buffer ⟨input_shape, scheduler⟩),
   MainAction.run_benchmark 100,
   MainAction.exit_code 0]

/-- The usage line `main` prints on a bad argument count. -/
def usage_message : String := "Usage: .//relu_gpu [autoscheduler]"

/-- The action trace of `main`, given the command-line arguments after the
program name (`argc = args.length + 1`), the host target and the library's
device-support predicate.  `argc == 2`: announce and load the plugin
`autoschedule_li2018`, then proceed with `scheduler = argv[1]`; `argc == 1`:
announce and proceed with the manual schedule; otherwise print usage to
standard error and return 1. -/
def main_trace (args : List String) (host : Target) (hs : Target → Bool) : List MainAction :=
  let argc := args.length + 1
  if argc = 2 then
    MainAction.print_stdout
        ("Running performance test for Blur with autoscheduler: " ++ args.headI ++ ".")
      :: MainAction.load_plugin "autoschedule_li2018"
      :: main_rest args.headI host hs
  else if argc = 1 then
    MainAction.print_stdout "Running performance test for Blur with manual schedule."
      :: main_rest "" host hs
  else
    [MainAction.print_stderr usage_message, MainAction.exit_code 1]

/-- The plugin names loaded along a trace of `main`. -/
def loaded_plugins (trace : List MainAction) : List String :=
  trace.filterMap fun a =>
    match a with
    | MainAction.load_plugin name => some name
    | _ => none

/-- Whether coordinate `(n, c, x, y)` lies within a buffer of extents `s`
(all four dimensions have minimum 0). -/
def inBounds (s : Shape4) (n c x y : Int) : Prop :=
  0 ≤ n ∧ n < s.d0 ∧ 0 ≤ c ∧ c < s.d1 ∧ 0 ≤ x ∧ x < s.d2 ∧ 0 ≤ y ∧ y < s.d3

instance (s : Shape4) (n c x y : Int) : Decidable (inBounds s n c x y) :=
  inferInstanceAs (Decidable
    (0 ≤ n ∧ n < s.d0 ∧ 0 ≤ c ∧ c < s.d1 ∧ 0 ≤ x ∧ x < s.d2 ∧ 0 ≤ y ∧ y < s.d3))

/-- C1: at every output coordinate, the pipeline computes the reference value
`out[n,c,x,y] = (1/3) * sum_j (1/3) * sum_i input[n,c,x+i,y+j]` for
`i, j ∈ {0,1,2}`; the producer stage is the 3-tap unit-stride average over the
third coordinate and the consumer is the 3-tap unit-stride average of the
producer over the fourth coordinate. -/
theorem consumer_eq_reference (input : Image) (n c x y : Int) :
    consumer input n c x y =
      (1 / 3) * ∑ j in Finset.range 3, (1 / 3) * ∑ i in Finset.range 3,
        input n c (x + (i : Int)) (y + (j : Int))
    ∧ producer input n c x y =
      (1 / 3) * ∑ i in Finset.range 3, input n c (x + (i : Int)) y
    ∧ consumer input n c x y =
      (1 / 3) * ∑ j in Finset.range 3, producer input n c x (y + (j : Int)) := by
  refine ⟨?_, ?_, ?_⟩ <;>
  · simp [consumer, producer, Finset.sum_range_succ]
    ring

/-- C3: for every input shape `(batch, channels, height, width)` and every
scheduler string, `get_output_buffer` returns extents
`(batch, channels, height - 2, width - 2)`. -/
theorem get_output_buffer_shape (batch channels height width : Int) (scheduler : String) :
    (BlurState.mk ⟨batch, channels, height, width⟩ scheduler).get_output_buffer
      = ⟨batch, channels, height - 2, width - 2⟩ := rfl

/-- C8: for an input tensor that equals a constant `k` everywhere, every output
element of the pipeline equals exactly `k`. -/
theorem constant_input_fixed_point (input : Image) (k : ℚ)
    (h : ∀ n c x y : Int, input n c x y = k) :
    ∀ n c x y : Int, consumer input n c x y = k := by
  intro n c x y
  simp only [consumer, producer, h]
  ring

/-- C8 witness: the constant-5 image maps to 5 at the origin. -/
theorem constant_input_fixed_point_witness :
    (∀ n c x y : Int, (fun _ _ _ _ => (5 : ℚ)) n c x y = 5)
    ∧ consumer (fun _ _ _ _ => (5 : ℚ)) 0 0 0 0 = 5 :=
  ⟨fun _ _ _ _ => rfl, constant_input_fixed_point (fun _ _ _ _ => (5 : ℚ)) 5
    (fun _ _ _ _ => rfl) 0 0 0 0⟩

/-- C4: starting from the host descriptor (which carries no GPU feature), the
resolver's candidate list is Metal on OS X hosts and CUDA otherwise; it returns
the first supported candidate with that feature enabled; when no candidate is
supported it returns the plain host descriptor, which has no GPU feature, and
`schedule_for_gpu` then returns `false` with no scheduling event performed. -/
theorem gpu_target_resolver_fallback (os : OS) (hs : Target → Bool) (b : BlurState) :
    features_to_try (get_host_target os)
        = (if os = OS.OSX then [Feature.Metal] else [Feature.CUDA])
    ∧ (∀ f : Feature, f ∈ features_to_try (get_host_target os) →
        hs ((get_host_target os).with_feature f) = true →
        find_gpu_target (get_host_target os) hs = (get_host_target os).with_feature f)
    ∧ ((∀ f ∈ features_to_try (get_host_target os), hs ((get_host_target os).with_feature f) = false) →
        find_gpu_target (get_host_target os) hs = get_host_target os
        ∧ (find_gpu_target (get_host_target os) hs).has_gpu_feature = false
        ∧ schedule_for_gpu b (get_host_target os) hs = (false, [])) := by
  refine ⟨rfl, ?_, ?_⟩
  · intro f hf hsup
    by_cases hos : os = OS.OSX
    · subst hos
      simp [features_to_try, get_host_target] at hf
      subst hf
      simp only [get_host_target] at hsup
      simp [find_gpu_target, features_to_try, get_host_target, List.find?, hsup]
    · simp [features_to_try, get_host_target, hos] at hf
      subst hf
      simp only [get_host_target] at hsup
      simp [find_gpu_target, features_to_try, get_host_target, hos, List.find?, hsup]
  · intro hall
    have hnone : (features_to_try (get_host_target os)).find?
        (fun f => hs ((get_host_target os).with_feature f)) = none := by
      rw [List.find?_eq_none]
      intro f hf
      simp [hall f hf]
    have hfind : find_gpu_target (get_host_target os) hs = get_host_target os := by
      rw [find_gpu_target, hnone]
    refine ⟨hfind, ?_, ?_⟩
    · rw [hfind]; rfl
    · rw [schedule_for_gpu]
      simp only [hfind]
      rfl

/-- C4 witness: on a Linux host that supports no device target, the candidate
list is `[CUDA]`, the resolver falls back to the plain host descriptor and the
scheduling step returns `false` having performed no event. -/
theorem gpu_target_resolver_fallback_witness :
    (features_to_try (get_host_target OS.Linux)
        = if OS.Linux = OS.OSX then [Feature.Metal] else [Feature.CUDA])
    ∧ (∀ f : Feature, f ∈ features_to_try (get_host_target OS.Linux) →
        (fun _ => false) ((get_host_target OS.Linux).with_feature f) = true →
        find_gpu_target (get_host_target OS.Linux) (fun _ => false)
          = (get_host_target OS.Linux).with_feature f)
    ∧ ((∀ f ∈ features_to_try (get_host_target OS.Linux),
          (fun _ => false) ((get_host_target OS.Linux).with_feature f) = false) →
        find_gpu_target (get_host_target OS.Linux) (fun _ => false) = get_host_target OS.Linux
        ∧ (find_gpu_target (get_host_target OS.Linux) (fun _ => false)).has_gpu_feature = false
        ∧ schedule_for_gpu ⟨input_shape, ""⟩ (get_host_target OS.Linux) (fun _ => false)
            = (false, [])) :=
  gpu_target_resolver_fallback OS.Linux (fun _ => false) ⟨input_shape, ""⟩

/-- C9: on the manual path (empty scheduler) with a resolved GPU target whose
feature is not CUDA, `schedule_for_gpu` applies no scheduling directive to
either stage, yet still prints the target, JIT-compiles the consumer for the
resolved target, and returns `true`. -/
theorem manual_non_cuda_unscheduled (b : BlurState) (host : Target) (hs : Target → Bool)
    (f : Feature) (hsched : b.scheduler = "")
    (hgpu : (find_gpu_target host hs).gpu = some f) (hf : f ≠ Feature.CUDA) :
    (schedule_for_gpu b host hs).1 = true
    ∧ (schedule_for_gpu b host hs).2
        = [Event.print_target (find_gpu_target host hs),
           Event.compile_jit (find_gpu_target host hs)] := by
  have h1 : (find_gpu_target host hs).has_gpu_feature = true := by
    simp [Target.has_gpu_feature, hgpu]
  have h2 : (find_gpu_target host hs).has_feature Feature.CUDA = false := by
    simp [Target.has_feature, hgpu, hf]
  have h3 : b.scheduler.isEmpty = true := by rw [hsched]; rfl
  rw [schedule_for_gpu]
  simp [h1, h2, h3]

/-- C9 witness: an OS X host supporting every device resolves to a Metal
target; with the empty scheduler, the step performs only the printout and the
JIT compile, and returns `true`. -/
theorem manual_non_cuda_unscheduled_witness :
    (BlurState.mk input_shape "").scheduler = ""
    ∧ (find_gpu_target ⟨OS.OSX, none⟩ (fun _ => true)).gpu = some Feature.Metal
    ∧ Feature.Metal ≠ Feature.CUDA
    ∧ ((schedule_for_gpu ⟨input_shape, ""⟩ ⟨OS.OSX, none⟩ (fun _ => true)).1 = true
       ∧ (schedule_for_gpu ⟨input_shape, ""⟩ ⟨OS.OSX, none⟩ (fun _ => true)).2
           = [Event.print_target (find_gpu_target ⟨OS.OSX, none⟩ (fun _ => true)),
              Event.compile_jit (find_gpu_target ⟨OS.OSX, none⟩ (fun _ => true))]) :=
  ⟨rfl, rfl, by decide,
   manual_non_cuda_unscheduled ⟨input_shape, ""⟩ ⟨OS.OSX, none⟩ (fun _ => true)
     Feature.Metal rfl rfl (by decide)⟩

/-- Helper: in the tail of `main`, the schedule step (with its recorded result)
is followed by the 100-run benchmark. -/
theorem sublist_schedule_run (s : String) (host : Target) (hs : Target → Bool) :
    List.Sublist
      [MainAction.schedule_gpu (schedule_for_gpu ⟨input_shape, s⟩ host hs).1,
       MainAction.run_benchmark 100]
      (main_rest s host hs) := by
  rw [main_rest]
  exact .cons _ (.cons _ (.cons _ (.cons _ (.cons₂ _ (.cons _ (.cons _ (.cons₂ _
    (.cons _ .slnil))))))))

/-- C2: `main` never checks the boolean returned by `schedule_for_gpu`; even
when the scheduling step reports failure, the trace of `main` records the
failed schedule step followed by the 100-run benchmark. -/
theorem main_benchmarks_despite_schedule_failure (args : List String) (host : Target)
    (hs : Target → Bool) (hlen : args.length ≤ 1)
    (hfail : ∀ s : String, (schedule_for_gpu ⟨input_shape, s⟩ host hs).1 = false) :
    List.Sublist [MainAction.schedule_gpu false, MainAction.run_benchmark 100]
      (main_trace args host hs) := by
  have key : ∀ s : String,
      List.Sublist [MainAction.schedule_gpu false, MainAction.run_benchmark 100]
        (main_rest s host hs) := by
    intro s
    have h := sublist_schedule_run s host hs
    rwa [hfail s] at h
  rcases args with _ | ⟨a, _ | ⟨b, t⟩⟩
  · simpa [main_trace] using (key "").cons _
  · simpa [main_trace] using ((key a).cons _).cons _
  · simp at hlen

/-- C2 witness: on a Linux host supporting no device target, scheduling fails
for every scheduler string, yet the benchmark step still follows it in the
trace of `main` invoked with no arguments. -/
theorem main_benchmarks_despite_schedule_failure_witness :
    ([] : List String).length ≤ 1
    ∧ (∀ s : String,
        (schedule_for_gpu ⟨input_shape, s⟩ (get_host_target OS.Linux) (fun _ => false)).1
          = false)
    ∧ List.Sublist [MainAction.schedule_gpu false, MainAction.run_benchmark 100]
        (main_trace [] (get_host_target OS.Linux) (fun _ => false)) :=
  ⟨by decide, fun _ => rfl,
   main_benchmarks_despite_schedule_failure [] (get_host_target OS.Linux) (fun _ => false)
     (by decide) (fun _ => rfl)⟩

/-- C6 counterexample: invoked with the single argument `adams2019`, `main`
loads exactly the plugin `autoschedule_li2018`, whose name neither is the
named algorithm nor is derived from it. -/
theorem plugin_name_ignores_argument :
    loaded_plugins (main_trace ["adams2019"] (get_host_target OS.Linux) (fun _ => false))
      = ["autoschedule_li2018"]
    ∧ "autoschedule_li2018" ≠ "adams2019"
    ∧ "autoschedule_li2018" ≠ "autoschedule_" ++ "adams2019" :=
  ⟨rfl, by decide, by decide⟩

/-- C6 (amended): invoked with exactly one argument, `main` loads exactly the
fixed plugin `autoschedule_li2018` — regardless of the argument's value —
before the scheduling step (which performs all compilation); invoked with zero
arguments it loads no plugin. -/
theorem fixed_plugin_loaded_before_compile (s : String) (host : Target) (hs : Target → Bool) :
    loaded_plugins (main_trace [s] host hs) = ["autoschedule_li2018"]
    ∧ List.Sublist
        [MainAction.load_plugin "autoschedule_li2018",
         MainAction.schedule_gpu (schedule_for_gpu ⟨input_shape, s⟩ host hs).1]
        (main_trace [s] host hs)
    ∧ loaded_plugins (main_trace [] host hs) = [] := by
  refine ⟨?_, ?_, ?_⟩
  · simp [main_trace, main_rest, loaded_plugins]
  · have h : List.Sublist
        [MainAction.schedule_gpu (schedule_for_gpu ⟨input_shape, s⟩ host hs).1]
        (main_rest s host hs) := by
      rw [main_rest]
      exact .cons _ (.cons _ (.cons _ (.cons _ (.cons₂ _ (List.nil_sublist _)))))
    exact List.Sublist.cons _ (List.Sublist.cons₂ _ h)
  · simp [main_trace, main_rest, loaded_plugins]

/-- C7: invoked with two or more arguments, `main` only prints the usage line
to standard error and returns exit code 1: its trace contains no buffer
allocation, no scheduling and no compilation. -/
theorem usage_error_trace (args : List String) (host : Target) (hs : Target → Bool)
    (h : 2 ≤ args.length) :
    main_trace args host hs
      = [MainAction.print_stderr usage_message, MainAction.exit_code 1] := by
  have h2 : ¬ (args.length + 1 = 2) := by omega
  have h1 : ¬ (args.length + 1 = 1) := by omega
  rw [main_trace]
  simp [h2, h1]

/-- C7 witness: invoked with the two arguments `a b`, `main` prints the usage
line and exits with code 1. -/
theorem usage_error_trace_witness :
    2 ≤ (["a", "b"] : List String).length
    ∧ main_trace ["a", "b"] (get_host_target OS.Linux) (fun _ => false)
        = [MainAction.print_stderr usage_message, MainAction.exit_code 1] :=
  ⟨by decide,
   usage_error_trace ["a", "b"] (get_host_target OS.Linux) (fun _ => false) (by decide)⟩

/-- Helper: after at least one iteration with non-negative elapsed times, the
tracked best time is non-negative and `best * n ≤ total`. -/
theorem bench_loop_nonneg_mul_le (elapsed : Nat → ℚ) :
    ∀ n : Nat, 1 ≤ n → (∀ i, i < n → 0 ≤ elapsed i) →
      0 ≤ (bench_loop elapsed n).2
      ∧ (bench_loop elapsed n).2 * n ≤ (bench_loop elapsed n).1 := by
  intro n
  induction n with
  | zero => intro h; exact absurd h (by omega)
  | succ m ih =>
    intro _ hpos
    rcases Nat.eq_zero_or_pos m with hm | hm
    · subst hm
      have h0 := hpos 0 (by omega)
      simp [bench_loop]
      exact h0
    · obtain ⟨hb, ht⟩ := ih hm (fun i hi => hpos i (by omega))
      have he := hpos m (by omega)
      have hcast : ((m + 1 : Nat) : ℚ) = (m : ℚ) + 1 := by push_cast; ring
      have hmq : (0 : ℚ) ≤ (m : ℚ) := by positivity
      simp only [bench_loop]
      by_cases hlt : elapsed m < (bench_loop elapsed m).2
      · rw [if_pos (Or.inr hlt), hcast]
        have h1 : elapsed m * (m : ℚ) ≤ (bench_loop elapsed m).2 * m :=
          mul_le_mul_of_nonneg_right (le_of_lt hlt) hmq
        exact ⟨he, by nlinarith⟩
      · have hcond : ¬ (m = 0 ∨ elapsed m < (bench_loop elapsed m).2) := by
          rintro (h0 | h2)
          · omega
          · exact hlt h2
        rw [if_neg hcond, hcast]
        have h2 : (bench_loop elapsed m).2 ≤ elapsed m := le_of_not_lt hlt
        exact ⟨hb, by nlinarith⟩

/-- C5: for every run count `num_runs ≥ 1` and non-negative per-iteration
elapsed times, the best latency reported by `test_performance` is non-negative
and at most the reported average `total_time / num_runs`, which is itself
non-negative. -/
theorem test_performance_best_le_average (elapsed : Nat → ℚ) (num_runs : Nat)
    (h1 : 1 ≤ num_runs) (h0 : ∀ i, i < num_runs → 0 ≤ elapsed i) :
    0 ≤ (test_performance_report elapsed num_runs).2
    ∧ (test_performance_report elapsed num_runs).2
        ≤ (test_performance_report elapsed num_runs).1
    ∧ 0 ≤ (test_performance_report elapsed num_runs).1 := by
  obtain ⟨hb, ht⟩ := bench_loop_nonneg_mul_le elapsed num_runs h1 h0
  have hn : (0 : ℚ) < (num_runs : ℚ) := by exact_mod_cast (by omega : 0 < num_runs)
  have htot : (0 : ℚ) ≤ (bench_loop elapsed num_runs).1 :=
    le_trans (mul_nonneg hb (le_of_lt hn)) ht
  refine ⟨hb, ?_, ?_⟩
  · rw [test_performance_report]
    exact (le_div_iff₀ hn).mpr ht
  · rw [test_performance_report]
    exact div_nonneg htot (le_of_lt hn)

/-- C5 witness: a single run of 2 milliseconds reports best 2, average 2. -/
theorem test_performance_best_le_average_witness :
    1 ≤ 1
    ∧ (∀ i, i < 1 → 0 ≤ (fun _ : Nat => (2 : ℚ)) i)
    ∧ (0 ≤ (test_performance_report (fun _ : Nat => (2 : ℚ)) 1).2
       ∧ (test_performance_report (fun _ : Nat => (2 : ℚ)) 1).2
           ≤ (test_performance_report (fun _ : Nat => (2 : ℚ)) 1).1
       ∧ 0 ≤ (test_performance_report (fun _ : Nat => (2 : ℚ)) 1).1) :=
  ⟨le_refl 1, fun _ _ => by norm_num,
   test_performance_best_le_average (fun _ : Nat => (2 : ℚ)) 1 (le_refl 1)
     (fun _ _ => by norm_num)⟩

/-- C10: at every coordinate within the output buffer returned by
`get_output_buffer`, all nine input accesses `input(n, c, x+i, y+j)` with
`i, j ∈ {0, 1, 2}` lie within the input buffer's bounds, and the consumer's
value there depends on the input only through those nine points (the two
stages read nothing else). -/
theorem stencil_reads_in_bounds (b : BlurState) (n c x y : Int)
    (h : inBounds b.get_output_buffer n c x y) :
    (∀ i j : Int, 0 ≤ i → i ≤ 2 → 0 ≤ j → j ≤ 2 → inBounds b.input n c (x + i) (y + j))
    ∧ ∀ input₁ input₂ : Image,
        (∀ i j : Int, 0 ≤ i → i ≤ 2 → 0 ≤ j → j ≤ 2 →
          input₁ n c (x + i) (y + j) = input₂ n c (x + i) (y + j)) →
        consumer input₁ n c x y = consumer input₂ n c x y := by
  simp only [inBounds, BlurState.get_output_buffer] at h
  constructor
  · intro i j hi0 hi2 hj0 hj2
    simp only [inBounds]
    omega
  · intro in1 in2 hag
    have e00 := hag 0 0 (by norm_num) (by norm_num) (by norm_num) (by norm_num)
    have e10 := hag 1 0 (by norm_num) (by norm_num) (by norm_num) (by norm_num)
    have e20 := hag 2 0 (by norm_num) (by norm_num) (by norm_num) (by norm_num)
    have e01 := hag 0 1 (by norm_num) (by norm_num) (by norm_num) (by norm_num)
    have e11 := hag 1 1 (by norm_num) (by norm_num) (by norm_num) (by norm_num)
    have e21 := hag 2 1 (by norm_num) (by norm_num) (by norm_num) (by norm_num)
    have e02 := hag 0 2 (by norm_num) (by norm_num) (by norm_num) (by norm_num)
    have e12 := hag 1 2 (by norm_num) (by norm_num) (by norm_num) (by norm_num)
    have e22 := hag 2 2 (by norm_num) (by norm_num) (by norm_num) (by norm_num)
    simp only [add_zero] at e00 e10 e20 e01 e02
    simp only [consumer, producer]
    rw [e00, e10, e20, e01, e11, e21, e02, e12, e22]

/-- C10 witness: on a 1×1×3×3 input, the single output coordinate (0,0,0,0)
is in bounds, all nine stencil reads are in bounds, and the consumer there
depends only on those nine input points. -/
theorem stencil_reads_in_bounds_witness :
    inBounds (BlurState.get_output_buffer ⟨⟨1, 1, 3, 3⟩, ""⟩) 0 0 0 0
    ∧ ((∀ i j : Int, 0 ≤ i → i ≤ 2 → 0 ≤ j → j ≤ 2 →
          inBounds (Shape4.mk 1 1 3 3) 0 0 (0 + i) (0 + j))
       ∧ ∀ input₁ input₂ : Image,
           (∀ i j : Int, 0 ≤ i → i ≤ 2 → 0 ≤ j → j ≤ 2 →
             input₁ 0 0 (0 + i) (0 + j) = input₂ 0 0 (0 + i) (0 + j)) →
           consumer input₁ 0 0 0 0 = consumer input₂ 0 0 0 0) :=
  ⟨by decide, stencil_reads_in_bounds ⟨⟨1, 1, 3, 3⟩, ""⟩ 0 0 0 0 (by decide)⟩

end BlurDemo
